import Mathlib

/-!
Verification of the ARTEMIS service worker (src/sw.js).

The worker is a single event-driven module with three handlers:
install (pre-populate two cache partitions), activate (delete stale
partitions) and fetch (route each intercepted GET request to a
network-first or cache-first strategy, or pass it through).

Shallow embedding conventions:
- a URL object (the result of the source's URL constructor applied to
  the request URL) is modelled by its two components the code reads,
  hostname and pathname;
- a response descriptor carries its HTTP status and a body; the ok
  flag of the Fetch API (status in 200..299) is the derived field
  Response.ok; Response.clone models content-preserving duplication,
  while object identity and body-stream consumption order are tracked
  by the operation trace emitted by the handlers;
- the network is a function from requests to Except Nat Response: an
  ok result models the fetch promise resolving with that response, and
  an error e models the promise rejecting with error value e;
- a cache partition is an association list from request identity to
  the most recently stored response snapshot (put overwrites in place);
  the global cache storage is a named list of partitions;
- each fetch-event handler returns its routing result, the updated
  worker state, and the trace of primitive operations it initiates, in
  source order (network fetch, cache lookup, response clone, cache
  put, handing the response body to the caller).
-/

/-- The two URL components the source reads from the URL object. -/
structure Url where
  hostname : String
  pathname : String
deriving DecidableEq, Repr

/-- Request identity: method plus URL, as used for routing and cache keys. -/
structure Request where
  method : String
  url : Url
deriving DecidableEq, Repr

/-- A response descriptor: HTTP status code and body payload. -/
structure Response where
  status : Nat
  body : String
deriving DecidableEq, Repr

/-- The Fetch API ok flag: true exactly when the status is in 200..299. -/
def Response.ok (r : Response) : Bool :=
  200 ≤ r.status && r.status ≤ 299

/-- The clone method: a content-preserving duplicate of the response.
Object identity of the duplicate is tracked in the operation trace. -/
def Response.clone (r : Response) : Response := r

/-- A cache partition: key to snapshot mapping, newest entry first. -/
abbrev Cache := List (Request × Response)

/-- The empty partition. -/
def Cache.empty : Cache := []

/-- cache.match: the stored snapshot for the key, if any. -/
def cacheMatchFn (c : Cache) (k : Request) : Option Response :=
  (List.find? (fun e => e.1 == k) c).map (fun e => e.2)

/-- cache.put: store the snapshot under the key, overwriting any previous entry. -/
def cachePut (c : Cache) (k : Request) (v : Response) : Cache :=
  (k, v) :: List.filter (fun e => e.1 != k) c

/-- CACHE_VERSION as hard-coded in the source. -/
def CACHE_VERSION : String := "v1"

/-- STATIC_CACHE, as a function of the version tag interpolated into the name. -/
def STATIC_CACHE (v : String) : String := "artemis-static-" ++ v

/-- CDN_CACHE, as a function of the version tag interpolated into the name. -/
def CDN_CACHE (v : String) : String := "artemis-cdn-" ++ v

/-- ALL_CACHES: the two current-version partition names. -/
def ALL_CACHES (v : String) : List String := [STATIC_CACHE v, CDN_CACHE v]

/-- STATIC_ASSETS: the two relative first-party URLs, resolved against the
worker origin when used as fetch targets and cache keys. -/
def STATIC_ASSETS (origin : String) : List Url :=
  [⟨origin, "/artemis.html"⟩, ⟨origin, "/artemis_ja.html"⟩]

/-- CDN_PREFETCH: the six pinned third-party script URLs, split into
hostname and pathname as the URL constructor would. -/
def CDN_PREFETCH : List Url :=
  [⟨"cdn.plot.ly", "/plotly-2.27.0.min.js"⟩,
   ⟨"d3js.org", "/d3.v7.min.js"⟩,
   ⟨"cdn.jsdelivr.net", "/npm/d3-cloud@1.2.7/build/d3.layout.cloud.min.js"⟩,
   ⟨"cdn.jsdelivr.net", "/npm/d3-sankey@0.12.3/dist/d3-sankey.min.js"⟩,
   ⟨"cdn.jsdelivr.net", "/npm/papaparse@5.4.1/papaparse.min.js"⟩,
   ⟨"cdn.jsdelivr.net", "/npm/xlsx@0.18.5/dist/xlsx.full.min.js"⟩]

/-- The GET request that fetching and caching a listed URL uses as key. -/
def toGetReq (u : Url) : Request := ⟨"GET", u⟩

/-- One step of an install branch: fetch the listed URL; store the
response under the URL only when it is ok; skip failures silently. -/
def installPutStep (net : Request → Except Nat Response) (cache : Cache) (u : Url) : Cache :=
  match net (toGetReq u) with
  | .ok r => if r.ok then cachePut cache (toGetReq u) r else cache
  | .error _ => cache

/-- One install branch over its whole URL list.  The source runs the
fetches concurrently under Promise.allSettled; the listed URLs are
pairwise distinct, so the concurrent puts touch distinct keys and any
serialization order yields this fold. -/
def installCache (net : Request → Except Nat Response) (urls : List Url) : Cache :=
  urls.foldl (installPutStep net) Cache.empty

/-- The install handler: populate the static partition from STATIC_ASSETS
and the CDN partition from CDN_PREFETCH, each best-effort.  The two
branches use separate network effect functions because the CDN branch
passes a cors mode flag to fetch. -/
def installStep (netStatic netCdn : Request → Except Nat Response) (origin : String) :
    Cache × Cache :=
  (installCache netStatic (STATIC_ASSETS origin), installCache netCdn CDN_PREFETCH)

/-- caches.delete: remove the partition with the given name. -/
def cachesDelete (storage : List (String × Cache)) (n : String) : List (String × Cache) :=
  List.filter (fun p => p.1 != n) storage

/-- The activate handler: enumerate all partition names, keep those in
ALL_CACHES, delete every other one. -/
def activateStep (v : String) (storage : List (String × Cache)) : List (String × Cache) :=
  (List.filter (fun n => !(ALL_CACHES v).contains n) (storage.map (fun p => p.1))).foldl
    cachesDelete storage

/-- The endsWith test of the source (JS String.prototype.endsWith), as a
structural suffix test on the character sequence. -/
def strEndsWith (s suff : String) : Bool :=
  List.isSuffixOf suff.data s.data

/-- isCacheable: the fixed hostname allow-list tested in the fetch handler. -/
def isCacheable (u : Url) : Bool :=
  u.hostname == "pyscript.net" ||
  u.hostname == "cdn.jsdelivr.net" ||
  u.hostname == "cdn.plot.ly" ||
  u.hostname == "d3js.org" ||
  u.hostname == "huggingface.co" ||
  u.hostname == "cdn-lfs.huggingface.co"

/-- The strategy the fetch handler selects for a request, following the
guard structure of the listener: non-GET returns early, then the html
suffix test, then the allow-list test. -/
inductive Strategy where
  | networkFirst
  | cacheFirst
  | passThrough
deriving DecidableEq, Repr

/-- Classification of a request, mirroring the fetch listener's guards. -/
def selectStrategy (req : Request) : Strategy :=
  if req.method != "GET" then .passThrough
  else if strEndsWith req.url.pathname ".html" then .networkFirst
  else if isCacheable req.url then .cacheFirst
  else .passThrough

/-- The worker state visible to the fetch handler: the two live partitions. -/
structure SWState where
  staticCache : Cache
  cdnCache : Cache
deriving DecidableEq

/-- caches.match: search every partition for the key, in creation order
(the static partition is opened before the CDN partition). -/
def cachesMatchAll (st : SWState) (k : Request) : Option Response :=
  match cacheMatchFn st.staticCache k with
  | some r => some r
  | none => cacheMatchFn st.cdnCache k

/-- A primitive operation initiated by the fetch handler, in source order:
network fetch, single-partition lookup, all-partition lookup, response
clone, partition put, and handing the response body to the caller. -/
inductive Op where
  | netFetch (r : Request)
  | matchOp (part : String) (r : Request)
  | matchAllOp (r : Request)
  | cloneOp (r : Request)
  | putOp (part : String) (r : Request)
  | respondOp (r : Request)
deriving DecidableEq, Repr

/-- The value the respondWith promise settles to. -/
inductive FetchOutcome where
  | ok (r : Response)
  | failed (e : Nat)
  | noMatch
deriving DecidableEq, Repr

/-- The routing result of one fetch event: either the handler returned
without calling respondWith (the request proceeds untouched), or it
responded with an eventual outcome. -/
inductive RouteResult where
  | passThrough
  | responded (o : FetchOutcome)
deriving DecidableEq, Repr

/-- The fetch event listener.  Returns the routing result, the updated
worker state, and the trace of operations in initiation order. -/
def handleFetch (v : String) (net : Request → Except Nat Response)
    (st : SWState) (req : Request) : RouteResult × SWState × List Op :=
  if req.method != "GET" then (.passThrough, st, [])
  else if strEndsWith req.url.pathname ".html" then
    match net req with
    | .ok response =>
        (.responded (.ok response),
         { st with staticCache := cachePut st.staticCache req response.clone },
         [.netFetch req, .cloneOp req, .putOp (STATIC_CACHE v) req, .respondOp req])
    | .error _ =>
        match cachesMatchAll st req with
        | some cached =>
            (.responded (.ok cached), st,
             [.netFetch req, .matchAllOp req, .respondOp req])
        | none =>
            (.responded .noMatch, st, [.netFetch req, .matchAllOp req])
  else if isCacheable req.url then
    match cacheMatchFn st.cdnCache req with
    | some cached =>
        (.responded (.ok cached), st, [.matchOp (CDN_CACHE v) req, .respondOp req])
    | none =>
        match net req with
        | .ok response =>
            if response.status == 200 then
              (.responded (.ok response),
               { st with cdnCache := cachePut st.cdnCache req response.clone },
               [.matchOp (CDN_CACHE v) req, .netFetch req, .cloneOp req,
                .putOp (CDN_CACHE v) req, .respondOp req])
            else
              (.responded (.ok response), st,
               [.matchOp (CDN_CACHE v) req, .netFetch req, .respondOp req])
        | .error e =>
            (.responded (.failed e), st, [.matchOp (CDN_CACHE v) req, .netFetch req])
  else (.passThrough, st, [])

/-- The clone of the response for a request precedes, in the operation
trace, every consumption of a copy of that response: the put that reads
the stored copy's body and the respond that hands the returned copy's
body to the caller. -/
def clonePrecedes (r : Request) (ops : List Op) : Prop :=
  ∀ i : Nat,
    ((∃ p : String, ops.get? i = some (Op.putOp p r)) ∨
      ops.get? i = some (Op.respondOp r)) →
    ∃ j : Nat, j < i ∧ ops.get? j = some (Op.cloneOp r)

/-- Looking a key up in the empty partition misses. -/
theorem cacheMatchFn_empty (k : Request) : cacheMatchFn Cache.empty k = none := rfl

/-- A put is immediately visible under its own key. -/
theorem cacheMatchFn_put_self (c : Cache) (k : Request) (w : Response) :
    cacheMatchFn (cachePut c k w) k = some w := by
  unfold cacheMatchFn cachePut
  rw [List.find?_cons_of_pos _ (by simp)]
  rfl

/-- Dropping the entries of an unrelated key does not change a lookup. -/
theorem find_filter_ne (c : Cache) (k k' : Request) (h : k ≠ k') :
    List.find? (fun e => e.1 == k) (List.filter (fun e => e.1 != k') c) =
      List.find? (fun e => e.1 == k) c := by
  induction c with
  | nil => rfl
  | cons e t ih =>
    rw [List.filter_cons]
    by_cases he : e.1 = k'
    · have h2 : ¬((fun e => e.1 == k) e = true) := by
        simp only [beq_iff_eq]
        exact fun hk => h (hk ▸ he)
      rw [if_neg (by simp [he])]
      rw [ih]
      exact (List.find?_cons_of_neg t h2).symm
    · rw [if_pos (by simp [he])]
      by_cases hpe : ((fun e => e.1 == k) e = true)
      · rw [List.find?_cons_of_pos (List.filter (fun e => e.1 != k') t) hpe,
          List.find?_cons_of_pos t hpe]
      · rw [List.find?_cons_of_neg (List.filter (fun e => e.1 != k') t) hpe,
          List.find?_cons_of_neg t hpe, ih]

/-- A put under one key does not change the lookup of a different key. -/
theorem cacheMatchFn_put_other (c : Cache) (k k' : Request) (w : Response) (h : k ≠ k') :
    cacheMatchFn (cachePut c k' w) k = cacheMatchFn c k := by
  have hk : ¬((fun e => e.1 == k) ((k', w) : Request × Response) = true) := by
    simp only [beq_iff_eq]
    exact fun hkk => h hkk.symm
  unfold cacheMatchFn cachePut
  rw [List.find?_cons_of_neg (List.filter (fun e => e.1 != k') c) hk,
    find_filter_ne c k k' h]

/-- A hit after a put is a hit on the put key or a previous hit. -/
theorem cacheMatchFn_put_isSome (c : Cache) (k k' : Request) (w : Response)
    (h : (cacheMatchFn (cachePut c k' w) k).isSome = true) :
    k = k' ∨ (cacheMatchFn c k).isSome = true := by
  by_cases hk : k = k'
  · exact Or.inl hk
  · rw [cacheMatchFn_put_other c k k' w hk] at h
    exact Or.inr h

/-- An install step only touches the lookup of its own URL. -/
theorem installPutStep_lookup_other (net : Request → Except Nat Response)
    (c : Cache) (u : Url) (k : Request) (h : toGetReq u ≠ k) :
    cacheMatchFn (installPutStep net c u) k = cacheMatchFn c k := by
  unfold installPutStep
  cases net (toGetReq u) with
  | ok r =>
    by_cases hok : r.ok = true
    · simp [hok, cacheMatchFn_put_other c k (toGetReq u) r (Ne.symm h)]
    · simp [hok]
  | error e => rfl

/-- Folding install steps over URLs that never map to the key leaves
the lookup of the key unchanged. -/
theorem foldl_installPutStep_not_mem (net : Request → Except Nat Response) :
    ∀ (urls : List Url) (acc : Cache) (k : Request),
      (∀ w ∈ urls, toGetReq w ≠ k) →
      cacheMatchFn (urls.foldl (installPutStep net) acc) k = cacheMatchFn acc k := by
  intro urls
  induction urls with
  | nil => intro acc k _; rfl
  | cons u t ih =>
    intro acc k h
    have hu : toGetReq u ≠ k := h u (List.mem_cons_self u t)
    have ht : ∀ w ∈ t, toGetReq w ≠ k := fun w hw => h w (List.mem_cons_of_mem u hw)
    rw [List.foldl_cons, ih (installPutStep net acc u) k ht,
      installPutStep_lookup_other net acc u k hu]

/-- The characterization of one install branch: a listed URL, under a
duplicate-free list, ends up present exactly when its own fetch
resolved with an ok response, with that response as its snapshot. -/
theorem foldl_installPutStep_lookup (net : Request → Except Nat Response) :
    ∀ (urls : List Url) (acc : Cache) (u : Url),
      urls.Nodup → u ∈ urls → cacheMatchFn acc (toGetReq u) = none →
      cacheMatchFn (urls.foldl (installPutStep net) acc) (toGetReq u) =
        (match net (toGetReq u) with
         | .ok r => if r.ok then some r else none
         | .error _ => none) := by
  intro urls
  induction urls with
  | nil => intro acc u _ hu; exact absurd hu (List.not_mem_nil u)
  | cons w t ih =>
    intro acc u hnd hu hacc
    rw [List.nodup_cons] at hnd
    rcases List.mem_cons.mp hu with hw | hu
    · subst hw
      have ht : ∀ x ∈ t, toGetReq x ≠ toGetReq u := by
        intro x hx hxe
        have : x = u := by
          have := congrArg Request.url hxe
          simpa [toGetReq] using this
        exact hnd.1 (this ▸ hx)
      rw [List.foldl_cons, foldl_installPutStep_not_mem net t _ _ ht]
      unfold installPutStep
      cases hnet : net (toGetReq u) with
      | ok r =>
        by_cases hok : r.ok = true
        · simp [hok, cacheMatchFn_put_self]
        · simp [hok, hacc]
      | error e => simpa using hacc
    · have hwu : toGetReq w ≠ toGetReq u := by
        intro hxe
        have : w = u := by
          have := congrArg Request.url hxe
          simpa [toGetReq] using this
        exact hnd.1 (this ▸ hu)
      have hacc2 : cacheMatchFn (installPutStep net acc w) (toGetReq u) = none := by
        rw [installPutStep_lookup_other net acc w _ hwu]; exact hacc
      rw [List.foldl_cons]
      exact ih (installPutStep net acc w) u hnd.2 hu hacc2

/-- Every key present after folding install steps is a pre-existing
key or one of the listed URLs. -/
theorem foldl_installPutStep_isSome (net : Request → Except Nat Response) :
    ∀ (urls : List Url) (acc : Cache) (k : Request),
      (cacheMatchFn (urls.foldl (installPutStep net) acc) k).isSome = true →
      (cacheMatchFn acc k).isSome = true ∨ k ∈ urls.map toGetReq := by
  intro urls
  induction urls with
  | nil => intro acc k h; exact Or.inl h
  | cons u t ih =>
    intro acc k h
    rw [List.foldl_cons] at h
    rcases ih (installPutStep net acc u) k h with hs | hm
    · unfold installPutStep at hs
      revert hs
      cases net (toGetReq u) with
      | ok r =>
        by_cases hok : r.ok = true
        · simp only [hok, if_true]
          intro hs
          rcases cacheMatchFn_put_isSome acc k (toGetReq u) r hs with he | hp
          · exact Or.inr (by simp [he])
          · exact Or.inl hp
        · simp only [hok, if_false]
          intro hs
          exact Or.inl hs
      | error e => intro hs; exact Or.inl hs
    · exact Or.inr (List.mem_cons_of_mem _ hm)


/-- Deleting one partition name keeps exactly the other names. -/
theorem names_cachesDelete (storage : List (String × Cache)) (m n : String) :
    n ∈ (cachesDelete storage m).map (fun p => p.1) ↔
      n ∈ storage.map (fun p => p.1) ∧ n ≠ m := by
  unfold cachesDelete
  simp only [List.mem_map, List.mem_filter, bne_iff_ne]
  constructor
  · rintro ⟨a, ⟨ha, hne⟩, rfl⟩
    exact ⟨⟨a, ha, rfl⟩, hne⟩
  · rintro ⟨⟨a, ha, rfl⟩, hne⟩
    exact ⟨a, ⟨ha, hne⟩, rfl⟩

/-- Folding deletions over a list of names keeps exactly the names
outside that list. -/
theorem mem_names_foldl_delete :
    ∀ (l : List String) (storage : List (String × Cache)) (n : String),
      n ∈ (l.foldl cachesDelete storage).map (fun p => p.1) ↔
        n ∈ storage.map (fun p => p.1) ∧ n ∉ l := by
  intro l
  induction l with
  | nil => intro storage n; simp
  | cons m t ih =>
    intro storage n
    rw [List.foldl_cons, ih, names_cachesDelete]
    simp only [List.mem_cons]
    constructor
    · rintro ⟨⟨hn, hm⟩, ht⟩
      exact ⟨hn, fun hc => hc.elim hm ht⟩
    · rintro ⟨hn, hmt⟩
      exact ⟨⟨hn, fun hm => hmt (Or.inl hm)⟩, fun ht => hmt (Or.inr ht)⟩

/-- The allow-list predicate holds exactly on the six listed hostnames. -/
theorem isCacheable_iff (u : Url) :
    isCacheable u = true ↔
      u.hostname ∈ ["pyscript.net", "cdn.jsdelivr.net", "cdn.plot.ly",
        "d3js.org", "huggingface.co", "cdn-lfs.huggingface.co"] := by
  unfold isCacheable
  simp [List.mem_cons, or_assoc]

/-- Claim C1: for every intercepted request, a GET whose URL path ends in
".html" selects the network-first strategy; a GET whose path does not end
in ".html" and whose hostname is in the fixed allow-list (pyscript.net,
cdn.jsdelivr.net, cdn.plot.ly, d3js.org, huggingface.co,
cdn-lfs.huggingface.co) selects the cache-first strategy; every other
request (non-GET, or hostname not allow-listed and path not ending in
".html") is not intervened upon: the handler returns without responding
and leaves the state untouched. -/
theorem c1_classification (req : Request) :
    (req.method = "GET" → strEndsWith req.url.pathname ".html" = true →
      selectStrategy req = .networkFirst) ∧
    (req.method = "GET" → strEndsWith req.url.pathname ".html" = false →
      req.url.hostname ∈ ["pyscript.net", "cdn.jsdelivr.net", "cdn.plot.ly",
        "d3js.org", "huggingface.co", "cdn-lfs.huggingface.co"] →
      selectStrategy req = .cacheFirst) ∧
    ((req.method ≠ "GET" ∨
        (strEndsWith req.url.pathname ".html" = false ∧
          req.url.hostname ∉ ["pyscript.net", "cdn.jsdelivr.net", "cdn.plot.ly",
            "d3js.org", "huggingface.co", "cdn-lfs.huggingface.co"])) →
      selectStrategy req = .passThrough ∧
      ∀ (v : String) (net : Request → Except Nat Response) (st : SWState),
        handleFetch v net st req = (.passThrough, st, [])) := by
  refine ⟨?_, ?_, ?_⟩
  · intro hm hh
    unfold selectStrategy
    rw [if_neg (by simp [hm]), if_pos hh]
  · intro hm hh hc
    unfold selectStrategy
    rw [if_neg (by simp [hm]), if_neg (by simp [hh]),
      if_pos ((isCacheable_iff req.url).mpr hc)]
  · intro hcase
    rcases hcase with hm | ⟨hh, hc⟩
    · have hb : (req.method != "GET") = true := by simp [hm]
      refine ⟨?_, ?_⟩
      · unfold selectStrategy; rw [if_pos hb]
      · intro v net st; unfold handleFetch; rw [if_pos hb]
    · have hcf : ¬(isCacheable req.url = true) :=
        fun hct => hc ((isCacheable_iff req.url).mp hct)
      by_cases hm : req.method = "GET"
      · refine ⟨?_, ?_⟩
        · unfold selectStrategy
          rw [if_neg (by simp [hm]), if_neg (by simp [hh]), if_neg hcf]
        · intro v net st
          unfold handleFetch
          rw [if_neg (by simp [hm]), if_neg (by simp [hh]), if_neg hcf]
      · have hb : (req.method != "GET") = true := by simp [hm]
        refine ⟨?_, ?_⟩
        · unfold selectStrategy; rw [if_pos hb]
        · intro v net st; unfold handleFetch; rw [if_pos hb]

/-- Witness for C1: one concrete request per classification case. -/
theorem c1_classification_witness :
    selectStrategy ⟨"GET", ⟨"app.example.org", "/artemis.html"⟩⟩ = .networkFirst ∧
    selectStrategy ⟨"GET", ⟨"cdn.jsdelivr.net", "/pyodide/pyodide.wasm"⟩⟩ = .cacheFirst ∧
    handleFetch "v1" (fun _ => Except.error 0) ⟨[], []⟩
        ⟨"POST", ⟨"api.example.org", "/submit"⟩⟩ =
      (.passThrough, ⟨[], []⟩, []) :=
  ⟨(c1_classification ⟨"GET", ⟨"app.example.org", "/artemis.html"⟩⟩).1
      rfl (by decide),
   (c1_classification ⟨"GET", ⟨"cdn.jsdelivr.net", "/pyodide/pyodide.wasm"⟩⟩).2.1
      rfl (by decide) (by decide),
   ((c1_classification ⟨"POST", ⟨"api.example.org", "/submit"⟩⟩).2.2
      (Or.inl (by decide))).2 "v1" (fun _ => Except.error 0) ⟨[], []⟩⟩

/-- Claim C5: after the activate step, a partition name survives exactly
when it both existed before and is one of the two current-version names;
in particular, activating under version tag v2 while a v1-named
partition exists deletes the v1 partition and keeps the v2 partitions. -/
theorem c5_version_isolation :
    (∀ (v : String) (storage : List (String × Cache)) (n : String),
      n ∈ (activateStep v storage).map (fun p => p.1) ↔
        n ∈ storage.map (fun p => p.1) ∧ n ∈ ALL_CACHES v) ∧
    (∀ c₁ c₂ c₃ : Cache,
      (activateStep "v2"
          [(STATIC_CACHE "v1", c₁), (STATIC_CACHE "v2", c₂), (CDN_CACHE "v2", c₃)]).map
          (fun p => p.1) =
        [STATIC_CACHE "v2", CDN_CACHE "v2"]) := by
  constructor
  · intro v storage n
    unfold activateStep
    rw [mem_names_foldl_delete]
    constructor
    · rintro ⟨hn, hl⟩
      refine ⟨hn, ?_⟩
      by_contra hall
      exact hl (List.mem_filter.mpr ⟨hn, by simp [hall]⟩)
    · rintro ⟨hn, hall⟩
      refine ⟨hn, fun hf => ?_⟩
      have h2 := (List.mem_filter.mp hf).2
      simp at h2
      exact h2 hall
  · intro c₁ c₂ c₃
    rfl

/-- Claim C2: a cache-first request whose key holds a previously stored
snapshot R in the third-party partition is answered with R, the state is
unchanged, and the trace contains no network fetch. -/
theorem c2_cache_first_hit (v : String) (net : Request → Except Nat Response)
    (st : SWState) (req : Request) (R : Response)
    (hm : req.method = "GET")
    (hh : strEndsWith req.url.pathname ".html" = false)
    (hc : isCacheable req.url = true)
    (hR : cacheMatchFn st.cdnCache req = some R) :
    handleFetch v net st req =
      (.responded (.ok R), st, [.matchOp (CDN_CACHE v) req, .respondOp req]) ∧
    ∀ r : Request, Op.netFetch r ∉ (handleFetch v net st req).2.2 := by
  have h1 : handleFetch v net st req =
      (.responded (.ok R), st, [.matchOp (CDN_CACHE v) req, .respondOp req]) := by
    unfold handleFetch
    rw [if_neg (by simp [hm]), if_neg (by simp [hh]), if_pos hc, hR]
  refine ⟨h1, ?_⟩
  intro r
  rw [h1]
  simp

/-- Witness for C2: a stored plotly script is served from the partition. -/
theorem c2_cache_first_hit_witness :
    handleFetch "v1" (fun _ => Except.error 7)
        ⟨[], [(⟨"GET", ⟨"cdn.plot.ly", "/plotly-2.27.0.min.js"⟩⟩, ⟨200, "plotly"⟩)]⟩
        ⟨"GET", ⟨"cdn.plot.ly", "/plotly-2.27.0.min.js"⟩⟩ =
      (.responded (.ok ⟨200, "plotly"⟩),
       ⟨[], [(⟨"GET", ⟨"cdn.plot.ly", "/plotly-2.27.0.min.js"⟩⟩, ⟨200, "plotly"⟩)]⟩,
       [.matchOp (CDN_CACHE "v1") ⟨"GET", ⟨"cdn.plot.ly", "/plotly-2.27.0.min.js"⟩⟩,
        .respondOp ⟨"GET", ⟨"cdn.plot.ly", "/plotly-2.27.0.min.js"⟩⟩]) :=
  (c2_cache_first_hit "v1" (fun _ => Except.error 7)
      ⟨[], [(⟨"GET", ⟨"cdn.plot.ly", "/plotly-2.27.0.min.js"⟩⟩, ⟨200, "plotly"⟩)]⟩
      ⟨"GET", ⟨"cdn.plot.ly", "/plotly-2.27.0.min.js"⟩⟩ ⟨200, "plotly"⟩
      rfl (by decide) (by decide) (by decide)).1

/-- Counterexample for C3: the source's network-failure fallback is
caches.match, which searches every partition, not only the static one.
Here the snapshot for an html request lives only in the CDN partition:
the claim as stated predicts the request fails, but the handler returns
the snapshot. -/
theorem c3_counterexample :
    cacheMatchFn
        (SWState.staticCache
          ⟨[], [(⟨"GET", ⟨"app.example.org", "/artemis.html"⟩⟩, ⟨200, "page"⟩)]⟩)
        ⟨"GET", ⟨"app.example.org", "/artemis.html"⟩⟩ = none ∧
    (handleFetch "v1" (fun _ => Except.error 0)
        ⟨[], [(⟨"GET", ⟨"app.example.org", "/artemis.html"⟩⟩, ⟨200, "page"⟩)]⟩
        ⟨"GET", ⟨"app.example.org", "/artemis.html"⟩⟩).1 =
      .responded (.ok ⟨200, "page"⟩) := by
  exact ⟨rfl, by decide⟩

/-- Claim C3 as amended: for a GET request whose path ends in ".html",
when the network fetch fails the handler looks the request up across all
cache partitions (static first, then third-party) and returns the first
stored snapshot found; if no snapshot is present in any partition the
request fails, with no synthetic fallback response. -/
theorem c3_network_first_fallback (v : String) (net : Request → Except Nat Response)
    (st : SWState) (req : Request) (e : Nat)
    (hm : req.method = "GET")
    (hh : strEndsWith req.url.pathname ".html" = true)
    (hnet : net req = .error e) :
    (∀ s : Response, cachesMatchAll st req = some s →
      handleFetch v net st req =
        (.responded (.ok s), st, [.netFetch req, .matchAllOp req, .respondOp req])) ∧
    (cachesMatchAll st req = none →
      handleFetch v net st req =
        (.responded .noMatch, st, [.netFetch req, .matchAllOp req])) := by
  constructor
  · intro s hs
    unfold handleFetch
    rw [if_neg (by simp [hm]), if_pos hh, hnet, hs]
  · intro hs
    unfold handleFetch
    rw [if_neg (by simp [hm]), if_pos hh, hnet, hs]

/-- Witness for C3 as amended: a stored static snapshot is served when
the network is down, and with nothing stored the request fails. -/
theorem c3_network_first_fallback_witness :
    handleFetch "v1" (fun _ => Except.error 3)
        ⟨[(⟨"GET", ⟨"app.example.org", "/artemis.html"⟩⟩, ⟨200, "page"⟩)], []⟩
        ⟨"GET", ⟨"app.example.org", "/artemis.html"⟩⟩ =
      (.responded (.ok ⟨200, "page"⟩),
       ⟨[(⟨"GET", ⟨"app.example.org", "/artemis.html"⟩⟩, ⟨200, "page"⟩)], []⟩,
       [.netFetch ⟨"GET", ⟨"app.example.org", "/artemis.html"⟩⟩,
        .matchAllOp ⟨"GET", ⟨"app.example.org", "/artemis.html"⟩⟩,
        .respondOp ⟨"GET", ⟨"app.example.org", "/artemis.html"⟩⟩]) ∧
    handleFetch "v1" (fun _ => Except.error 3) ⟨[], []⟩
        ⟨"GET", ⟨"app.example.org", "/artemis.html"⟩⟩ =
      (.responded .noMatch, ⟨[], []⟩,
       [.netFetch ⟨"GET", ⟨"app.example.org", "/artemis.html"⟩⟩,
        .matchAllOp ⟨"GET", ⟨"app.example.org", "/artemis.html"⟩⟩]) :=
  ⟨(c3_network_first_fallback "v1" (fun _ => Except.error 3)
      ⟨[(⟨"GET", ⟨"app.example.org", "/artemis.html"⟩⟩, ⟨200, "page"⟩)], []⟩
      ⟨"GET", ⟨"app.example.org", "/artemis.html"⟩⟩ 3
      rfl (by decide) rfl).1 ⟨200, "page"⟩ (by decide),
   (c3_network_first_fallback "v1" (fun _ => Except.error 3) ⟨[], []⟩
      ⟨"GET", ⟨"app.example.org", "/artemis.html"⟩⟩ 3
      rfl (by decide) rfl).2 (by decide)⟩

/-- Claim C4: in the cache-first branch on a miss, a network response
with status other than 200 is returned to the caller with no write to
the third-party partition; a response with status exactly 200 is
duplicated, stored into the third-party partition, and the live
response is returned. -/
theorem c4_store_gating (v : String) (net : Request → Except Nat Response)
    (st : SWState) (req : Request) (resp : Response)
    (hm : req.method = "GET")
    (hh : strEndsWith req.url.pathname ".html" = false)
    (hc : isCacheable req.url = true)
    (hmiss : cacheMatchFn st.cdnCache req = none)
    (hnet : net req = .ok resp) :
    (resp.status ≠ 200 →
      handleFetch v net st req =
        (.responded (.ok resp), st,
         [.matchOp (CDN_CACHE v) req, .netFetch req, .respondOp req])) ∧
    (resp.status = 200 →
      handleFetch v net st req =
        (.responded (.ok resp),
         { st with cdnCache := cachePut st.cdnCache req resp.clone },
         [.matchOp (CDN_CACHE v) req, .netFetch req, .cloneOp req,
          .putOp (CDN_CACHE v) req, .respondOp req])) := by
  constructor
  · intro hs
    unfold handleFetch
    rw [if_neg (by simp [hm]), if_neg (by simp [hh]), if_pos hc, hmiss, hnet]
    simp [hs]
  · intro hs
    unfold handleFetch
    rw [if_neg (by simp [hm]), if_neg (by simp [hh]), if_pos hc, hmiss, hnet]
    simp [hs]

/-- Witness for C4: a 404 is returned but not stored; a 200 is stored
and returned. -/
theorem c4_store_gating_witness :
    handleFetch "v1" (fun _ => Except.ok ⟨404, "missing"⟩) ⟨[], []⟩
        ⟨"GET", ⟨"d3js.org", "/d3.v7.min.js"⟩⟩ =
      (.responded (.ok ⟨404, "missing"⟩), ⟨[], []⟩,
       [.matchOp (CDN_CACHE "v1") ⟨"GET", ⟨"d3js.org", "/d3.v7.min.js"⟩⟩,
        .netFetch ⟨"GET", ⟨"d3js.org", "/d3.v7.min.js"⟩⟩,
        .respondOp ⟨"GET", ⟨"d3js.org", "/d3.v7.min.js"⟩⟩]) ∧
    handleFetch "v1" (fun _ => Except.ok ⟨200, "d3"⟩) ⟨[], []⟩
        ⟨"GET", ⟨"d3js.org", "/d3.v7.min.js"⟩⟩ =
      (.responded (.ok ⟨200, "d3"⟩),
       ⟨[], [(⟨"GET", ⟨"d3js.org", "/d3.v7.min.js"⟩⟩, ⟨200, "d3"⟩)]⟩,
       [.matchOp (CDN_CACHE "v1") ⟨"GET", ⟨"d3js.org", "/d3.v7.min.js"⟩⟩,
        .netFetch ⟨"GET", ⟨"d3js.org", "/d3.v7.min.js"⟩⟩,
        .cloneOp ⟨"GET", ⟨"d3js.org", "/d3.v7.min.js"⟩⟩,
        .putOp (CDN_CACHE "v1") ⟨"GET", ⟨"d3js.org", "/d3.v7.min.js"⟩⟩,
        .respondOp ⟨"GET", ⟨"d3js.org", "/d3.v7.min.js"⟩⟩]) :=
  ⟨(c4_store_gating "v1" (fun _ => Except.ok ⟨404, "missing"⟩) ⟨[], []⟩
      ⟨"GET", ⟨"d3js.org", "/d3.v7.min.js"⟩⟩ ⟨404, "missing"⟩
      rfl (by decide) (by decide) rfl rfl).1 (by decide),
   (c4_store_gating "v1" (fun _ => Except.ok ⟨200, "d3"⟩) ⟨[], []⟩
      ⟨"GET", ⟨"d3js.org", "/d3.v7.min.js"⟩⟩ ⟨200, "d3"⟩
      rfl (by decide) (by decide) rfl rfl).2 rfl⟩

/-- Claim C7: in the cache-first branch on a miss, a failing network
fetch propagates its failure unchanged to the caller; the trace shows
the only cache lookup is the initial miss, before the fetch, so no
fallback lookup in any partition follows the failure, and the state is
unchanged. -/
theorem c7_cache_first_failure (v : String) (net : Request → Except Nat Response)
    (st : SWState) (req : Request) (e : Nat)
    (hm : req.method = "GET")
    (hh : strEndsWith req.url.pathname ".html" = false)
    (hc : isCacheable req.url = true)
    (hmiss : cacheMatchFn st.cdnCache req = none)
    (hnet : net req = .error e) :
    handleFetch v net st req =
      (.responded (.failed e), st, [.matchOp (CDN_CACHE v) req, .netFetch req]) := by
  unfold handleFetch
  rw [if_neg (by simp [hm]), if_neg (by simp [hh]), if_pos hc, hmiss, hnet]

/-- Witness for C7: a network failure on an uncached CDN asset is
propagated with its error value intact. -/
theorem c7_cache_first_failure_witness :
    handleFetch "v1" (fun _ => Except.error 42) ⟨[], []⟩
        ⟨"GET", ⟨"pyscript.net", "/releases/core.js"⟩⟩ =
      (.responded (.failed 42), ⟨[], []⟩,
       [.matchOp (CDN_CACHE "v1") ⟨"GET", ⟨"pyscript.net", "/releases/core.js"⟩⟩,
        .netFetch ⟨"GET", ⟨"pyscript.net", "/releases/core.js"⟩⟩]) :=
  c7_cache_first_failure "v1" (fun _ => Except.error 42) ⟨[], []⟩
    ⟨"GET", ⟨"pyscript.net", "/releases/core.js"⟩⟩ 42
    rfl (by decide) (by decide) rfl rfl

/-- Claim C6: after an install branch over a duplicate-free asset list,
a listed URL is present in the partition exactly when its own fetch
resolved with an ok response (and then holds that response); a URL whose
fetch failed or returned non-OK is absent; the outcome for each URL
depends only on that URL's own fetch, so one failure never prevents
another reachable URL from being stored; the branch itself always
completes with a partition value. -/
theorem c6_install_resilience (net : Request → Except Nat Response)
    (urls : List Url) (h : urls.Nodup) (u : Url) (hu : u ∈ urls) :
    cacheMatchFn (installCache net urls) (toGetReq u) =
      (match net (toGetReq u) with
       | .ok r => if r.ok then some r else none
       | .error _ => none) :=
  foldl_installPutStep_lookup net urls Cache.empty u h hu (cacheMatchFn_empty _)

/-- Witness for C6: with the first static asset unreachable and the
second reachable, only the second is stored. -/
theorem c6_install_resilience_witness :
    cacheMatchFn
        (installCache
          (fun r => if r.url.pathname = "/artemis.html" then Except.error 9
            else Except.ok ⟨200, "ja"⟩)
          (STATIC_ASSETS "app.example.org"))
        (toGetReq ⟨"app.example.org", "/artemis.html"⟩) = none ∧
    cacheMatchFn
        (installCache
          (fun r => if r.url.pathname = "/artemis.html" then Except.error 9
            else Except.ok ⟨200, "ja"⟩)
          (STATIC_ASSETS "app.example.org"))
        (toGetReq ⟨"app.example.org", "/artemis_ja.html"⟩) = some ⟨200, "ja"⟩ :=
  ⟨(c6_install_resilience
      (fun r => if r.url.pathname = "/artemis.html" then Except.error 9
        else Except.ok ⟨200, "ja"⟩)
      (STATIC_ASSETS "app.example.org") (by decide)
      ⟨"app.example.org", "/artemis.html"⟩ (by decide)).trans (by decide),
   (c6_install_resilience
      (fun r => if r.url.pathname = "/artemis.html" then Except.error 9
        else Except.ok ⟨200, "ja"⟩)
      (STATIC_ASSETS "app.example.org") (by decide)
      ⟨"app.example.org", "/artemis_ja.html"⟩ (by decide)).trans (by decide)⟩

/-- The clone operation precedes both body consumptions in the
network-first success trace. -/
theorem clonePrecedes_network_first (s : String) (r : Request) :
    clonePrecedes r [.netFetch r, .cloneOp r, .putOp s r, .respondOp r] := by
  intro i hi
  rcases i with _ | _ | _ | _ | i
  · rcases hi with ⟨p, hp⟩ | hp <;> simp at hp
  · rcases hi with ⟨p, hp⟩ | hp <;> simp at hp
  · exact ⟨1, by omega, rfl⟩
  · exact ⟨1, by omega, rfl⟩
  · rcases hi with ⟨p, hp⟩ | hp <;> simp at hp

/-- The clone operation precedes both body consumptions in the
cache-first store trace. -/
theorem clonePrecedes_cache_first (s : String) (r : Request) :
    clonePrecedes r [.matchOp s r, .netFetch r, .cloneOp r, .putOp s r, .respondOp r] := by
  intro i hi
  rcases i with _ | _ | _ | _ | _ | i
  · rcases hi with ⟨p, hp⟩ | hp <;> simp at hp
  · rcases hi with ⟨p, hp⟩ | hp <;> simp at hp
  · rcases hi with ⟨p, hp⟩ | hp <;> simp at hp
  · exact ⟨2, by omega, rfl⟩
  · exact ⟨2, by omega, rfl⟩
  · rcases hi with ⟨p, hp⟩ | hp <;> simp at hp

/-- Claim C8: whenever one fetch-event handler both stores a copy of the
response in a partition and returns a copy to the caller, the trace
contains a clone of the response that strictly precedes the put and the
respond, so each consumed copy has its own unconsumed body. -/
theorem c8_clone_before_use (v : String) (net : Request → Except Nat Response)
    (st : SWState) (req : Request)
    (h1 : ∃ p : String, Op.putOp p req ∈ (handleFetch v net st req).2.2)
    (_h2 : Op.respondOp req ∈ (handleFetch v net st req).2.2) :
    Op.cloneOp req ∈ (handleFetch v net st req).2.2 ∧
    clonePrecedes req (handleFetch v net st req).2.2 := by
  obtain ⟨p, hp⟩ := h1
  by_cases hm : (req.method != "GET") = true
  · have heq : handleFetch v net st req = (.passThrough, st, []) := by
      unfold handleFetch; rw [if_pos hm]
    rw [heq] at hp; simp at hp
  · by_cases hh : strEndsWith req.url.pathname ".html" = true
    · cases hnet : net req with
      | ok resp =>
        have heq : handleFetch v net st req =
            (.responded (.ok resp),
             { st with staticCache := cachePut st.staticCache req resp.clone },
             [.netFetch req, .cloneOp req, .putOp (STATIC_CACHE v) req,
              .respondOp req]) := by
          unfold handleFetch; rw [if_neg hm, if_pos hh, hnet]
        rw [heq]
        exact ⟨by simp, clonePrecedes_network_first (STATIC_CACHE v) req⟩
      | error e =>
        cases hma : cachesMatchAll st req with
        | some s =>
          have heq : handleFetch v net st req =
              (.responded (.ok s), st,
               [.netFetch req, .matchAllOp req, .respondOp req]) := by
            unfold handleFetch; rw [if_neg hm, if_pos hh, hnet, hma]
          rw [heq] at hp; simp at hp
        | none =>
          have heq : handleFetch v net st req =
              (.responded .noMatch, st, [.netFetch req, .matchAllOp req]) := by
            unfold handleFetch; rw [if_neg hm, if_pos hh, hnet, hma]
          rw [heq] at hp; simp at hp
    · by_cases hc : isCacheable req.url = true
      · cases hcm : cacheMatchFn st.cdnCache req with
        | some cached =>
          have heq : handleFetch v net st req =
              (.responded (.ok cached), st,
               [.matchOp (CDN_CACHE v) req, .respondOp req]) := by
            unfold handleFetch; rw [if_neg hm, if_neg hh, if_pos hc, hcm]
          rw [heq] at hp; simp at hp
        | none =>
          cases hnet : net req with
          | ok resp =>
            by_cases hs : (resp.status == 200) = true
            · have heq : handleFetch v net st req =
                  (.responded (.ok resp),
                   { st with cdnCache := cachePut st.cdnCache req resp.clone },
                   [.matchOp (CDN_CACHE v) req, .netFetch req, .cloneOp req,
                    .putOp (CDN_CACHE v) req, .respondOp req]) := by
                unfold handleFetch
                rw [if_neg hm, if_neg hh, if_pos hc, hcm, hnet]
                simp [hs]
              rw [heq]
              exact ⟨by simp, clonePrecedes_cache_first (CDN_CACHE v) req⟩
            · have heq : handleFetch v net st req =
                  (.responded (.ok resp), st,
                   [.matchOp (CDN_CACHE v) req, .netFetch req, .respondOp req]) := by
                unfold handleFetch
                rw [if_neg hm, if_neg hh, if_pos hc, hcm, hnet]
                simp [hs]
              rw [heq] at hp; simp at hp
          | error e =>
            have heq : handleFetch v net st req =
                (.responded (.failed e), st,
                 [.matchOp (CDN_CACHE v) req, .netFetch req]) := by
              unfold handleFetch; rw [if_neg hm, if_neg hh, if_pos hc, hcm, hnet]
            rw [heq] at hp; simp at hp
      · have heq : handleFetch v net st req = (.passThrough, st, []) := by
          unfold handleFetch; rw [if_neg hm, if_neg hh, if_neg hc]
        rw [heq] at hp; simp at hp

/-- Witness for C8: the network-first success path on a concrete html
request clones before putting and responding. -/
theorem c8_clone_before_use_witness :
    Op.cloneOp ⟨"GET", ⟨"app.example.org", "/artemis.html"⟩⟩ ∈
      (handleFetch "v1" (fun _ => Except.ok ⟨200, "page"⟩) ⟨[], []⟩
        ⟨"GET", ⟨"app.example.org", "/artemis.html"⟩⟩).2.2 ∧
    clonePrecedes ⟨"GET", ⟨"app.example.org", "/artemis.html"⟩⟩
      (handleFetch "v1" (fun _ => Except.ok ⟨200, "page"⟩) ⟨[], []⟩
        ⟨"GET", ⟨"app.example.org", "/artemis.html"⟩⟩).2.2 :=
  c8_clone_before_use "v1" (fun _ => Except.ok ⟨200, "page"⟩) ⟨[], []⟩
    ⟨"GET", ⟨"app.example.org", "/artemis.html"⟩⟩
    ⟨STATIC_CACHE "v1", by decide⟩ (by decide)

/-- Claim C9: the allow-list admits huggingface.co and
cdn-lfs.huggingface.co for cache-first handling, yet no CDN_PREFETCH
entry has either hostname; consequently the install branch over
CDN_PREFETCH can never create an entry for those hosts under any
network behavior, while the cache-first fetch path can store one, so
such entries appear only lazily at fetch time. -/
theorem c9_lazy_population :
    (∀ p : String, isCacheable ⟨"huggingface.co", p⟩ = true ∧
      isCacheable ⟨"cdn-lfs.huggingface.co", p⟩ = true) ∧
    (∀ u ∈ CDN_PREFETCH, u.hostname ≠ "huggingface.co" ∧
      u.hostname ≠ "cdn-lfs.huggingface.co") ∧
    (∀ (net : Request → Except Nat Response) (k : Request),
      (cacheMatchFn (installCache net CDN_PREFETCH) k).isSome = true →
      k.url.hostname ≠ "huggingface.co" ∧ k.url.hostname ≠ "cdn-lfs.huggingface.co") ∧
    (∃ (v : String) (net : Request → Except Nat Response) (st : SWState)
        (req : Request) (resp : Response),
      req.url.hostname = "huggingface.co" ∧
      cacheMatchFn ((handleFetch v net st req).2.1).cdnCache req = some resp) := by
  refine ⟨fun p => ⟨rfl, rfl⟩, by decide, ?_, ?_⟩
  · intro net k hk
    rcases foldl_installPutStep_isSome net CDN_PREFETCH Cache.empty k hk with hs | hm
    · rw [cacheMatchFn_empty] at hs
      simp at hs
    · simp only [CDN_PREFETCH, toGetReq, List.map_cons, List.map_nil,
        List.mem_cons, List.not_mem_nil, or_false] at hm
      rcases hm with h | h | h | h | h | h <;> (subst h; exact ⟨by decide, by decide⟩)
  · exact ⟨"v1", fun _ => Except.ok ⟨200, "model"⟩, ⟨[], []⟩,
      ⟨"GET", ⟨"huggingface.co", "/model.bin"⟩⟩, ⟨200, "model"⟩, rfl, by decide⟩

/-- Claim C10: in the network-first branch every resolved response,
whatever its status, is cloned and stored into the static partition
keyed by the request while the live response is returned; the store
overwrites any previous snapshot for that key, and a later request
whose network fetch fails is served that stored response as the
fallback. -/
theorem c10_network_first_stores_all (v : String) (net : Request → Except Nat Response)
    (st : SWState) (req : Request) (resp : Response)
    (hm : req.method = "GET")
    (hh : strEndsWith req.url.pathname ".html" = true)
    (hnet : net req = .ok resp) :
    handleFetch v net st req =
      (.responded (.ok resp),
       { st with staticCache := cachePut st.staticCache req resp.clone },
       [.netFetch req, .cloneOp req, .putOp (STATIC_CACHE v) req, .respondOp req]) ∧
    cacheMatchFn (cachePut st.staticCache req resp.clone) req = some resp ∧
    (∀ (net2 : Request → Except Nat Response) (e : Nat), net2 req = .error e →
      (handleFetch v net2
          { st with staticCache := cachePut st.staticCache req resp.clone } req).1 =
        .responded (.ok resp)) := by
  refine ⟨?_, ?_, ?_⟩
  · unfold handleFetch
    rw [if_neg (by simp [hm]), if_pos hh, hnet]
  · exact cacheMatchFn_put_self st.staticCache req resp.clone
  · intro net2 e hnet2
    have hs : cachesMatchAll
        { st with staticCache := cachePut st.staticCache req resp.clone } req =
        some resp := by
      unfold cachesMatchAll
      rw [show ({ st with staticCache := cachePut st.staticCache req resp.clone } :
        SWState).staticCache = cachePut st.staticCache req resp.clone from rfl]
      rw [cacheMatchFn_put_self]
      rfl
    unfold handleFetch
    rw [if_neg (by simp [hm]), if_pos hh, hnet2, hs]

/-- Witness for C10: a 404 error page replaces a previously stored good
snapshot and is then served as the offline fallback. -/
theorem c10_network_first_stores_all_witness :
    handleFetch "v1" (fun _ => Except.ok ⟨404, "error page"⟩)
        ⟨[(⟨"GET", ⟨"app.example.org", "/artemis.html"⟩⟩, ⟨200, "good"⟩)], []⟩
        ⟨"GET", ⟨"app.example.org", "/artemis.html"⟩⟩ =
      (.responded (.ok ⟨404, "error page"⟩),
       ⟨[(⟨"GET", ⟨"app.example.org", "/artemis.html"⟩⟩, ⟨404, "error page"⟩)], []⟩,
       [.netFetch ⟨"GET", ⟨"app.example.org", "/artemis.html"⟩⟩,
        .cloneOp ⟨"GET", ⟨"app.example.org", "/artemis.html"⟩⟩,
        .putOp (STATIC_CACHE "v1") ⟨"GET", ⟨"app.example.org", "/artemis.html"⟩⟩,
        .respondOp ⟨"GET", ⟨"app.example.org", "/artemis.html"⟩⟩]) ∧
    (handleFetch "v1" (fun _ => Except.error 5)
        ⟨[(⟨"GET", ⟨"app.example.org", "/artemis.html"⟩⟩, ⟨404, "error page"⟩)], []⟩
        ⟨"GET", ⟨"app.example.org", "/artemis.html"⟩⟩).1 =
      .responded (.ok ⟨404, "error page"⟩) :=
  ⟨(c10_network_first_stores_all "v1" (fun _ => Except.ok ⟨404, "error page"⟩)
      ⟨[(⟨"GET", ⟨"app.example.org", "/artemis.html"⟩⟩, ⟨200, "good"⟩)], []⟩
      ⟨"GET", ⟨"app.example.org", "/artemis.html"⟩⟩ ⟨404, "error page"⟩
      rfl (by decide) rfl).1,
   (c10_network_first_stores_all "v1" (fun _ => Except.ok ⟨404, "error page"⟩)
      ⟨[(⟨"GET", ⟨"app.example.org", "/artemis.html"⟩⟩, ⟨200, "good"⟩)], []⟩
      ⟨"GET", ⟨"app.example.org", "/artemis.html"⟩⟩ ⟨404, "error page"⟩
      rfl (by decide) rfl).2.2 (fun _ => Except.error 5) 5 rfl⟩
